import Mathlib

/-!
Shallow embedding of `fhub/real_time.py` (the `Ticker` / `Subscription`
streaming core) and proofs about the claims of its specification.

Conventions of the embedding:
* Python dicts are association lists with insertion order and unique keys;
  the helpers `pyLookup` / `pyDictSet` / `pyGetE` / `pyPop` mirror CPython
  dict semantics (lookup, insert-or-overwrite keeping position, KeyError,
  pop).
* Raising code is modelled with `Except PyErr`; an `Except.error` result of
  a handler means the exception propagates out of that handler.
* JSON values (the result of `json.loads`) are the inductive `Json`;
  a frame that fails `json.loads` is represented as the `Except.error`
  input of `onMessage` (the parse itself is CPython's `json` module, not
  code of this repository).
* `pandas.DataFrame` objects used for the per-ticker history are modelled
  as lists of rows `(price, volume, datetime)`; `DataFrame.append` /
  `.tail` become list append / `tailDF`.
* `datetime.datetime` values are the structure `PyDateTime`.
-/

namespace Fhub

/-- JSON values, as produced by `json.loads`. -/
inductive Json where
  | null : Json
  | bool : Bool → Json
  | num : ℚ → Json
  | str : String → Json
  | arr : List Json → Json
  | obj : List (String × Json) → Json
deriving Repr

/-- Python exceptions relevant to this module. -/
inductive PyErr where
  | keyError : String → PyErr
  | typeError : String → PyErr
  | attributeError : String → PyErr
  | valueError : String → PyErr
  | jsonDecodeError : PyErr
  | userError : String → PyErr
deriving DecidableEq, Repr

/-- A `datetime.datetime` value (the calendar decomposition produced by
`datetime.fromtimestamp`). -/
structure PyDateTime where
  year : Int
  month : Int
  day : Int
  hour : Int
  minute : Int
  second : Int
  microsecond : Int
deriving DecidableEq, Repr

/-- Python run-time values stored in the decoded per-trade dict and in
`Ticker` attributes: a JSON value passed through unchanged, a `datetime`
object, a `DataFrame` of history rows `(price, volume, datetime)`, a
pandas missing value, or Python `None`. -/
inductive PyVal where
  | json : Json → PyVal
  | dt : PyDateTime → PyVal
  | df : List (PyVal × PyVal × PyVal) → PyVal
  | nan : PyVal
  | pynone : PyVal
deriving Repr

/-- One row of the history `DataFrame`: columns `price, volume, datetime`. -/
abbrev DFRow := PyVal × PyVal × PyVal

/-- Python dict lookup, `d.get(k)`-style: `none` when the key is absent. -/
def pyLookup (kvs : List (String × α)) (k : String) : Option α :=
  (kvs.find? (fun p => p.1 == k)).map (·.2)

/-- Python dict `d[k] = v`: overwrite in place when the key exists,
append otherwise (insertion order preserved). -/
def pyDictSet (kvs : List (String × α)) (k : String) (v : α) :
    List (String × α) :=
  if (kvs.find? (fun p => p.1 == k)).isSome then
    kvs.map (fun p => if p.1 == k then (k, v) else p)
  else kvs ++ [(k, v)]

/-- Python dict subscript `d[k]`: raises `KeyError` when absent. -/
def pyGetE (kvs : List (String × α)) (k : String) : Except PyErr α :=
  match pyLookup kvs k with
  | some v => .ok v
  | none => .error (.keyError k)

/-- Python `d.pop(k)`: returns the value and the dict without the key;
raises `KeyError` when absent. -/
def pyPop (kvs : List (String × α)) (k : String) :
    Except PyErr (α × List (String × α)) :=
  match pyLookup kvs k with
  | some v => .ok (v, kvs.eraseP (fun p => p.1 == k))
  | none => .error (.keyError k)

/-- Gregorian calendar date of a day count relative to 1970-01-01
(Howard Hinnant's `civil_from_days`, the standard algorithm implemented by
calendar libraries; every intermediate quotient has a non-negative
dividend, so truncating `Int` division agrees with floor division). -/
def civilFromDays (z0 : Int) : Int × Int × Int :=
  let z := z0 + 719468
  let era : Int := (if 0 ≤ z then z else z - 146096) / 146097
  let doe : Int := z - era * 146097
  let yoe : Int := (doe - doe / 1460 + doe / 36524 - doe / 146096) / 365
  let y : Int := yoe + era * 400
  let doy : Int := doe - (365 * yoe + yoe / 4 - yoe / 100)
  let mp : Int := (5 * doy + 2) / 153
  let d : Int := doy - (153 * mp + 2) / 5 + 1
  let m : Int := if mp < 10 then mp + 3 else mp - 9
  (if m ≤ 2 then y + 1 else y, m, d)

/-- Modelled from the Python standard library (not part of this
repository's sources): `datetime.datetime.fromtimestamp`, interpreted in
UTC. The code calls it without a `tz` argument, so the concrete calendar
fields depend on the platform timezone; the absolute instant denoted is
timezone-independent and this model fixes the UTC decomposition.
A timestamp whose instant falls outside `datetime`'s supported calendar
range (years 1 to 9999) raises: CPython signals `OverflowError`,
`OSError` or `ValueError` depending on magnitude and platform, a family
this model collapses into the single `valueError` (some platforms also
reject a narrower C-`localtime` range; the model uses the documented
`datetime` year range). Fractional seconds become microseconds
(`usTotal = ⌊q * 10^6⌋`, computed on the rational's numerator and
denominator so that the definition evaluates by reduction). -/
def fromtimestampUTC (q : ℚ) : Except PyErr PyDateTime :=
  let usTotal : Int := (q.num * 1000000).fdiv q.den
  let s : Int := usTotal.fdiv 1000000
  let us : Int := usTotal.fmod 1000000
  let days : Int := s.fdiv 86400
  let sod : Int := s.fmod 86400
  let c := civilFromDays days
  if c.1 < 1 ∨ 9999 < c.1 then
    .error (.valueError "year is out of range")
  else
    .ok { year := c.1, month := c.2.1, day := c.2.2,
          hour := sod / 3600, minute := (sod % 3600) / 60,
          second := sod % 60, microsecond := us }

/-- Embedding of `Ticker.__init__` (real_time.py:15-29): per-symbol state. `price`,
`volume` and `datetime` start as `None`; `history` starts as an empty
`DataFrame` with columns `price, volume, datetime`. The attributes are
set dynamically by `set_last_trade`; `extra` collects assignments to any
attribute name outside the fixed ones (never reached by the decoder,
whose keys are drawn from `_cols` plus `history`). The unused
`self.last = {}` attribute from `__init__` is not read or written
anywhere else and is omitted. -/
structure Ticker where
  symbol : PyVal
  price : PyVal := .pynone
  volume : PyVal := .pynone
  datetime_ : PyVal := .pynone
  max_history : Int := 1000
  history : PyVal := .df []
  extra : List (String × PyVal) := []

/-- Embedding of `Ticker(symbol, max_history)` as called from `Subscription.connect`. -/
def Ticker.init (symbol : String) (max_history : Int) : Ticker :=
  { symbol := .json (.str symbol), max_history := max_history }

/-- One `setattr(self, _key, _value)` step of `Ticker.set_last_trade`. -/
def Ticker.setAttr (t : Ticker) (k : String) (v : PyVal) : Ticker :=
  if k = "price" then { t with price := v }
  else if k = "volume" then { t with volume := v }
  else if k = "datetime" then { t with datetime_ := v }
  else if k = "history" then { t with history := v }
  else if k = "symbol" then { t with symbol := v }
  else { t with extra := pyDictSet t.extra k v }

/-- Embedding of `Ticker.set_last_trade` (real_time.py:31-33): sets one attribute per
entry of the decoded trade dict, in dict (insertion) order. -/
def Ticker.set_last_trade (t : Ticker) (info : List (String × PyVal)) :
    Ticker :=
  info.foldl (fun t p => t.setAttr p.1 p.2) t

/-- The field-renaming map `self._cols` (real_time.py:55). -/
def cols : List (String × String) :=
  [("s", "symbol"), ("p", "price"), ("t", "datetime"), ("v", "volume")]

/-- Python numeric coercion for `v / 1000`: JSON numbers divide directly,
booleans coerce to 0/1 (Python `bool` is an `int`); any other operand
raises `TypeError`. -/
def toNumQ : Json → Option ℚ
  | .num q => some q
  | .bool b => some (if b then 1 else 0)
  | _ => none

/-- Evaluation of `datetime.fromtimestamp(v / 1000)` on a `t` value:
`TypeError` when `v` is not numeric, `fromtimestamp`'s own raise when
the instant is out of range, and the `datetime` object otherwise. -/
def convTVal (v : Json) : Except PyErr PyVal :=
  match toNumQ v with
  | some q =>
    match fromtimestampUTC (mkRat q.num (q.den * 1000)) with
    | .ok d => .ok (.dt d)
    | .error e => .error e
  | none => .error (.typeError "unsupported operand type for /")

/-- The body of `Subscription._to_dict`'s dict comprehension, one input
item at a time: look up the renamed key in `_cols` (raising `KeyError`
on any key outside `{s, p, t, v}`), convert the value of `t` with
`datetime.fromtimestamp(v / 1000)` (raising `TypeError` when `v` is not
numeric, and propagating `fromtimestamp`'s own raise when the instant is
outside `datetime`'s supported range), pass every other value through,
and insert into the result dict. The exact division `v / 1000` is
written `mkRat v.num (v.den * 1000)`, which equals `v / 1000` (theorem
`mkRat_div_thousand`) but also evaluates by reduction (the library's
field division on `ℚ` is irreducible). -/
def toDictGo : List (String × Json) → List (String × PyVal) →
    Except PyErr (List (String × PyVal))
  | [], acc => .ok acc
  | (k, v) :: rest, acc =>
    match pyLookup cols k with
    | none => .error (.keyError k)
    | some k' =>
      if k = "t" then
        match convTVal v with
        | .ok pv => toDictGo rest (pyDictSet acc k' pv)
        | .error e => .error e
      else toDictGo rest (pyDictSet acc k' (.json v))

/-- Embedding of `Subscription._to_dict` (real_time.py:151-154) on the items of one
trade record. -/
def toDict (rec : List (String × Json)) : Except PyErr (List (String × PyVal)) :=
  toDictGo rec []

/-- Whether a `t` value survives `datetime.fromtimestamp(v / 1000)`:
numeric (a JSON number or boolean) and denoting an instant within
`datetime`'s supported calendar range. -/
def tConvertible (v : Json) : Bool :=
  match convTVal v with
  | .ok _ => true
  | .error _ => false

/-- Embedding of `DataFrame.tail(n)` on a list of rows: the last `n` rows for
`n ≥ 0`, and all rows but the first `|n|` for negative `n` (pandas
semantics). -/
def tailDF (n : Int) (l : List DFRow) : List DFRow :=
  if 0 ≤ n then l.drop (l.length - n.toNat) else l.drop (-n).toNat

/-- The last `n` elements of a list (`tailDF` at a non-negative count). -/
def tailN (n : Nat) (l : List α) : List α :=
  l.drop (l.length - n)

/-- Embedding of `DataFrame.append(_info, ignore_index=True)` row construction: the
appended row takes the `price`, `volume` and `datetime` entries of the
dict, aligned to the frame's columns, with missing entries becoming
`NaN`. -/
def rowFromInfo (info : List (String × PyVal)) : DFRow :=
  ((pyLookup info "price").getD .nan,
   (pyLookup info "volume").getD .nan,
   (pyLookup info "datetime").getD .nan)

/-- Embedding of `self.tickers[_symbol].history.append(_info, ignore_index=True)
.tail(self.tickers[_symbol].max_history)` (real_time.py:145-146). -/
def historyAppendTail (max_history : Int) (rows : List DFRow) (row : DFRow) :
    List DFRow :=
  tailDF max_history (rows ++ [row])

/-- A user callback value as seen by `connect`'s
`isinstance(on_tick, types.FunctionType)` check: a plain function (the
only shape that passes), a bound method, or some other callable object.
The payload is the behaviour of calling it on the updated ticker
(`Except.error` = the call raises). The plain-function /
bound-method calling-convention difference (extra `self` argument in
`_callback`) does not affect any claim and is not modelled. -/
inductive PyCallable where
  | function : (Ticker → Except PyErr Unit) → PyCallable
  | boundMethod : (Ticker → Except PyErr Unit) → PyCallable
  | otherCallable : (Ticker → Except PyErr Unit) → PyCallable

/-- Embedding of `isinstance(c, types.FunctionType)`. -/
def PyCallable.isFunctionType : PyCallable → Bool
  | .function _ => true
  | _ => false

/-- Invoke a callable on a ticker. -/
def PyCallable.call : PyCallable → Ticker → Except PyErr Unit
  | .function f, t => f t
  | .boundMethod f, t => f t
  | .otherCallable f, t => f t

/-- The mutable state of a `Subscription` relevant to the streaming path
(real_time.py:47-57). `tickers` is `None` until `connect` runs; the
model uses the empty map for that pre-`connect` value (the only
behavioural difference — `TypeError` instead of `KeyError` when
`_feeder` runs before `connect` — is unreachable in the claims). -/
structure SubState where
  tickers : List (String × Ticker) := []
  max_history : Int := 0
  timeout : Nat := 5
  on_tick : Option (Ticker → Except PyErr Unit) := none

/-- The state set up by `Subscription.__init__`. -/
def initState : SubState := {}

/-- Embedding of `self.tickers[_symbol]` where `_symbol` is the value popped from the
decoded dict: a dict keyed by the symbol strings given to `connect`, so
only a string value can be found; any other value (or an absent string)
raises `KeyError`. -/
def tickersGet (m : List (String × Ticker)) : PyVal → Except PyErr Ticker
  | .json (.str s) => pyGetE m s
  | _ => .error (.keyError "non-string trade symbol")

/-- Store the mutated ticker back under its symbol key (in Python the
`Ticker` object in the dict is mutated in place). -/
def tickersSet (m : List (String × Ticker)) : PyVal → Ticker →
    List (String × Ticker)
  | .json (.str s), t => pyDictSet m s t
  | _, _ => m

/-- The body of `_feeder`'s `for _data in _json['data']` loop for one
trade record (real_time.py:141-149): decode with `_to_dict`, pop the
symbol, when `self.max_history > 0` build the appended-and-trimmed
history `DataFrame` and store it into the dict, apply `set_last_trade`
to the looked-up ticker, then — when `self.on_tick` is set — call the
callback directly with the updated ticker. The second component lists
the symbols on which the callback was actually invoked (also when the
invocation raised). -/
def feedOne (st : SubState) (rec : Json) :
    Except PyErr SubState × List String :=
  match rec with
  | .obj kvs =>
    match toDict kvs with
    | .error e => (.error e, [])
    | .ok info =>
      match pyPop info "symbol" with
      | .error e => (.error e, [])
      | .ok (symv, info1) =>
        let step1 : Except PyErr (List (String × PyVal)) :=
          if 0 < st.max_history then
            match tickersGet st.tickers symv with
            | .error e => .error e
            | .ok tk =>
              match tk.history with
              | .df rows =>
                .ok (pyDictSet info1 "history"
                  (.df (historyAppendTail tk.max_history rows (rowFromInfo info1))))
              | _ => .error (.attributeError "append")
          else .ok info1
        match step1 with
        | .error e => (.error e, [])
        | .ok info2 =>
          match tickersGet st.tickers symv with
          | .error e => (.error e, [])
          | .ok tk2 =>
            let st2 := { st with
              tickers := tickersSet st.tickers symv (tk2.set_last_trade info2) }
            match st2.on_tick with
            | none => (.ok st2, [])
            | some f =>
              match tickersGet st2.tickers symv with
              | .error e => (.error e, [])
              | .ok tk4 =>
                let sym := match symv with
                  | .json (.str s) => s
                  | _ => ""
                match f tk4 with
                | .ok _ => (.ok st2, [sym])
                | .error e => (.error e, [sym])
  | _ => (.error (.attributeError "items"), [])

/-- The `for` loop of `_feeder` over `_json['data']`: records are
processed left to right; an exception raised by one record's processing
aborts the loop and propagates. -/
def feedList (st : SubState) : List Json →
    Except PyErr SubState × List String
  | [] => (.ok st, [])
  | r :: rs =>
    match feedOne st r with
    | (.error e, tr) => (.error e, tr)
    | (.ok st', tr) =>
      match feedList st' rs with
      | (res, tr') => (res, tr ++ tr')

/-- Embedding of `Subscription._feeder` (real_time.py:139-149). Iterating the value
of `'data'` only yields trade records when it is a JSON array; iterating
a non-empty string or object reaches `_to_dict` with a non-dict and
raises `AttributeError`, an empty one loops zero times, and a
non-iterable raises `TypeError`. -/
def feeder (st : SubState) (j : Json) :
    Except PyErr SubState × List String :=
  match j with
  | .obj kvs =>
    match pyLookup kvs "data" with
    | some (.arr ds) => feedList st ds
    | some (.str s) =>
      if s.isEmpty then (.ok st, []) else (.error (.attributeError "items"), [])
    | some (.obj kvs2) =>
      if kvs2.isEmpty then (.ok st, []) else (.error (.attributeError "items"), [])
    | some _ => (.error (.typeError "object is not iterable"), [])
    | none => (.ok st, [])
  | _ => (.error (.attributeError "keys"), [])

/-- Embedding of `Subscription.__on_message` (real_time.py:117-123). The argument is
the outcome of `json.loads(msg)`: `Except.error` for a frame that is not
parseable JSON (the raise propagates — there is no `try` in the
handler). A parsed frame is dispatched on `_json['type']`: `'trade'`
goes to `_feeder`, `'error'` prints `_json['msg']` (raising `KeyError`
when absent), any other value falls through both `==` comparisons and is
ignored. -/
def onMessage (st : SubState) (loadRes : Except PyErr Json) :
    Except PyErr SubState × List String :=
  match loadRes with
  | .error e => (.error e, [])
  | .ok j =>
    match j with
    | .obj kvs =>
      match pyGetE kvs "type" with
      | .error e => (.error e, [])
      | .ok t =>
        match t with
        | .str s =>
          if s = "trade" then feeder st j
          else if s = "error" then
            match pyGetE kvs "msg" with
            | .error e => (.error e, [])
            | .ok _ => (.ok st, [])
          else (.ok st, [])
        | _ => (.ok st, [])
    | _ => (.error (.typeError "object is not subscriptable"), [])

/-- The literal subscribe message built by `__on_open`
(real_time.py:127): `'\x7b"type":"subscribe","symbol": "' + _symbol + '"\x7d'`. -/
def subscribeMsg (s : String) : String :=
  "\x7b\"type\":\"subscribe\",\"symbol\": \"" ++ s ++ "\"\x7d"

/-- Embedding of `Subscription.__on_open` (real_time.py:125-128): the sequence of
`self.ws.send(...)` payloads, one per key of `self.tickers`, in dict
order. -/
def onOpen (st : SubState) : List String :=
  st.tickers.map (fun p => subscribeMsg p.1)

/-- Embedding of `Subscription._callback` (real_time.py:107-115): invoke a callable
(when given) under a bare `try/except: pass`, so any exception raised by
the callable is swallowed. This helper is defined by the class but is
never called on the `_feeder` dispatch path. -/
def Subscription_callback (callback : Option PyCallable) (t : Ticker) :
    Except PyErr Unit :=
  match callback with
  | none => .ok ()
  | some c =>
    match c.call t with
    | .ok _ => .ok ()
    | .error _ => .ok ()

/-- Observable actions of `Subscription.connect`: constructing a
`Ticker` for one symbol, starting the websocket transport thread, and
one `sleep(1)` polling step of the readiness loop. -/
inductive ConnAction where
  | createTicker : String → ConnAction
  | startTransport : ConnAction
  | sleepPoll : ConnAction
deriving DecidableEq, Repr

/-- How `connect` returns to its caller. `normal` is an ordinary return;
`processExit c` is `sys.exit(c)` (real_time.py:105), which raises
`SystemExit` and terminates the process. `connectTimeout` is modelled
from the spec: the catchable `ConnectTimeout` error condition the
specification prescribes for an unreachable server — the code never
produces it; it exists to state the comparison. -/
inductive ConnectOutcome where
  | normal : ConnectOutcome
  | processExit : Int → ConnectOutcome
  | connectTimeout : ConnectOutcome
deriving DecidableEq, Repr

/-- The readiness-polling loop of `connect` (real_time.py:99-102):
`_timeout = self.timeout; while (not connected) and _timeout: sleep(1);
_timeout -= 1`. `conn k` tells whether `self.ws.sock` is connected at
the check performed after `k` sleeps. Returns (number of sleeps
performed, remaining `_timeout` after the loop). The Python `timeout`
argument is an `int` whose negative values make this loop diverge when
the transport never connects; the model takes the `Nat` values on which
the loop terminates. -/
def pollLoop (conn : Nat → Bool) (k : Nat) : Nat → Nat × Nat
  | 0 => (k, 0)
  | r + 1 => if conn k then (k, r + 1) else pollLoop conn (k + 1) r

/-- Embedding of `Subscription.connect` (real_time.py:59-105): set `max_history`,
build a fresh `self.tickers` dict with one `Ticker` per symbol, set
`timeout`, register `on_tick` only when
`isinstance(on_tick, types.FunctionType)` holds (otherwise the previous
value — `None` on a fresh object — is kept), start the transport
thread, then poll readiness; when the poll budget is exhausted print and
`sys.exit(1)`. Returns the new state, the action trace, and the
outcome. -/
def connect (st : SubState) (symbols : List String)
    (on_tick : Option PyCallable) (max_history : Int) (timeout : Nat)
    (conn : Nat → Bool) : SubState × List ConnAction × ConnectOutcome :=
  let tickers := symbols.foldl
    (fun m s => pyDictSet m s (Ticker.init s max_history)) []
  let registered : Option (Ticker → Except PyErr Unit) :=
    match on_tick with
    | some c => if c.isFunctionType then some c.call else st.on_tick
    | none => st.on_tick
  let st1 : SubState :=
    { tickers := tickers, max_history := max_history, timeout := timeout,
      on_tick := registered }
  let p := pollLoop conn 0 timeout
  let trace := symbols.map ConnAction.createTicker
    ++ ConnAction.startTransport :: List.replicate p.1 ConnAction.sleepPoll
  (st1, trace, if p.2 = 0 then .processExit 1 else .normal)

/-- The history update performed by `_feeder` for one trade of one
symbol whose `Ticker` was built by `connect` with `max_history = H`
(so `self.max_history` and the ticker's `max_history` are both `H`):
when `H > 0`, append the row and keep the last `H`
(real_time.py:144-146); otherwise the history is left untouched. -/
def tickStep (H : Int) (rows : List DFRow) (row : DFRow) : List DFRow :=
  if 0 < H then historyAppendTail H rows row else rows

/-- JSON whitespace. -/
def isJWs (c : Char) : Bool :=
  c = ' ' || c = '\t' || c = '\n' || c = '\r'

/-- Skip JSON whitespace. -/
def skipWs (cs : List Char) : List Char :=
  cs.dropWhile isJWs

/-- Read one JSON string literal (no escape sequences: a backslash in
the body is rejected). Returns the body and the remaining input. -/
def parseJStr : List Char → Option (String × List Char)
  | '"' :: rest =>
    let body := rest.takeWhile (fun c => c != '"')
    if body.any (fun c => c == '\\') then none
    else
      match rest.dropWhile (fun c => c != '"') with
      | '"' :: tail => some (String.mk body, tail)
      | _ => none
  | _ => none

/-- Read the members of a JSON object whose values are all strings,
starting after the opening brace, up to and including the closing brace;
the whole input must be consumed. `fuel` bounds the number of members
(one unit per member suffices). -/
def parsePairsGo : Nat → List Char → Option (List (String × String))
  | 0, _ => none
  | fuel + 1, cs =>
    match parseJStr (skipWs cs) with
    | none => none
    | some (k, cs1) =>
      match skipWs cs1 with
      | ':' :: cs2 =>
        match parseJStr (skipWs cs2) with
        | none => none
        | some (v, cs3) =>
          match skipWs cs3 with
          | ',' :: cs4 =>
            match parsePairsGo fuel cs4 with
            | some ps => some ((k, v) :: ps)
            | none => none
          | '\x7d' :: cs5 =>
            if (skipWs cs5).isEmpty then some [(k, v)] else none
          | _ => none
      | _ => none

/-- Parse a complete JSON text denoting a flat object with string
values: the member list in textual order. Used to read back the
meaning, as a JSON object, of the wire messages the code assembles by
string concatenation. -/
def parseFlatObj (s : String) : Option (List (String × String)) :=
  match skipWs s.data with
  | '\x7b' :: cs =>
    match skipWs cs with
    | '\x7d' :: cs2 => if (skipWs cs2).isEmpty then some [] else none
    | _ => parsePairsGo (s.length + 1) cs
  | _ => none

/-! Concrete test vectors used by witnesses and counterexamples. -/

/-- The trade record of the specification's decoding example. -/
def tradeRec : List (String × Json) :=
  [("s", .str "AAPL"), ("p", .num (150.2 : ℚ)), ("v", .num 10),
   ("t", .num 1609459200000)]

/-- The envelope of the specification's decoding example. -/
def tradeFrameKvs : List (String × Json) :=
  [("type", .str "trade"), ("data", .arr [.obj tradeRec])]

/-- The frame of the specification's decoding example. -/
def tradeFrame : Json := .obj tradeFrameKvs

/-- The state after `connect(["AAPL", "MSFT"], max_history=1000)` against
a transport that is ready at once. -/
def tradeState : SubState :=
  (connect initState ["AAPL", "MSFT"] none 1000 5 (fun _ => true)).1

/-- State `tradeState` with a registered callback of the given behaviour. -/
def cbState (f : Ticker → Except PyErr Unit) : SubState :=
  { tradeState with on_tick := some f }

/-- A single-record trade frame for an arbitrary symbol. -/
def mkTradeFrame (sym : String) : Json :=
  .obj [("type", .str "trade"),
        ("data", .arr [.obj [("s", .str sym), ("p", .num 1), ("v", .num 2),
                             ("t", .num 0)]])]

/-- A record whose `t` value is not numeric and which also carries the
key `z` outside `{s, p, t, v}`. -/
def badKeyRec : List (String × Json) :=
  [("t", .str "x"), ("z", .num 1)]

/-- Five sample history rows. -/
def sampleRows : List DFRow :=
  [1, 2, 3, 4, 5].map (fun i => (PyVal.json (.num i), PyVal.json (.num 1), PyVal.nan))

/-- The dict `_to_dict` produces for `tradeRec`. -/
def decodedTradeInfo : List (String × PyVal) :=
  [("symbol", .json (.str "AAPL")), ("price", .json (.num (150.2 : ℚ))),
   ("volume", .json (.num 10)), ("datetime", .dt ⟨2021, 1, 1, 0, 0, 0, 0⟩)]

/-! Helper lemmas. -/

theorem mkRat_div_thousand (q : ℚ) : mkRat q.num (q.den * 1000) = q / 1000 := by
  rw [Rat.mkRat_eq_div]
  push_cast
  rw [div_mul_eq_div_div, Rat.num_div_den]

theorem pollLoop_never (conn : Nat → Bool) (h : ∀ i, conn i = false) :
    ∀ (r k : Nat), pollLoop conn k r = (k + r, 0) := by
  intro r
  induction r with
  | zero => intro k; simp [pollLoop]
  | succ n ih =>
    intro k
    simp only [pollLoop, h k, Bool.false_eq_true, if_false, ih (k + 1)]
    congr 1
    omega

/-- C1 counterexample: `connect(["AAPL","MSFT"], timeout=5)` against a
transport that never opens does not fail with a catchable
`ConnectTimeout` condition — it reaches `sys.exit(1)` and terminates the
process. -/
theorem connect_never_open_exits_not_timeout :
    (connect initState ["AAPL", "MSFT"] none 1000 5 (fun _ => false)).2.2
      = ConnectOutcome.processExit 1 ∧
    (connect initState ["AAPL", "MSFT"] none 1000 5 (fun _ => false)).2.2
      ≠ ConnectOutcome.connectTimeout := by
  exact ⟨rfl, by decide⟩

/-- C1 (amended): for every timeout `T` and every transport that never
reaches the connected state, `connect` performs exactly `T` one-second
polling sleeps and then terminates the process via `sys.exit(1)`; no
catchable `ConnectTimeout` condition is raised. -/
theorem connect_never_open_exits (st : SubState) (syms : List String)
    (cbarg : Option PyCallable) (H : Int) (T : Nat) (conn : Nat → Bool)
    (h : ∀ k, conn k = false) :
    (connect st syms cbarg H T conn).2.2 = ConnectOutcome.processExit 1 ∧
    (connect st syms cbarg H T conn).2.1.count ConnAction.sleepPoll = T := by
  have hp : pollLoop conn 0 T = (T, 0) := by
    have := pollLoop_never conn h T 0
    simpa using this
  constructor
  · simp [connect, hp]
  · simp only [connect, hp]
    rw [List.count_append, List.count_cons_of_ne (by simp),
      List.count_replicate_self]
    have : ConnAction.sleepPoll ∉ syms.map ConnAction.createTicker := by
      simp [List.mem_map]
    rw [List.count_eq_zero.mpr this]
    omega

/-- C1 witness. -/
theorem connect_never_open_exits_witness :
    (connect initState ["X"] none 10 3 (fun _ => false)).2.2
      = ConnectOutcome.processExit 1 ∧
    (connect initState ["X"] none 10 3 (fun _ => false)).2.1.count
      ConnAction.sleepPoll = 3 :=
  connect_never_open_exits initState ["X"] none 10 3 (fun _ => false)
    (fun _ => rfl)

/-- C3 counterexample: a frame that is not parseable JSON makes
`__on_message` raise — the handler returns the `json.loads` exception
instead of catching it and continuing. -/
theorem onMessage_malformed_escapes :
    onMessage tradeState (.error .jsonDecodeError)
      = (.error PyErr.jsonDecodeError, []) := rfl

/-- C3 (amended): for every state and every frame on which `json.loads`
raises, the exception propagates out of `__on_message` unchanged — the
per-frame handler contains no `try` and does not catch the decode
error; skipping the frame and continuing is left to the enclosing
transport library, not this code. -/
theorem onMessage_malformed_propagates (st : SubState) (e : PyErr) :
    onMessage st (.error e) = (.error e, []) := rfl

/-- C2 counterexample: with a registered callback that raises, feeding
the example trade frame makes the exception escape `_feeder`: the
dispatch returns the callback's exception (after having invoked it on
`AAPL`) instead of swallowing it and continuing. -/
theorem feeder_callback_exception_escapes :
    feeder (cbState (fun _ => .error (.userError "boom"))) tradeFrame
      = (.error (.userError "boom"), ["AAPL"]) := rfl

/-- C2 (amended): the `_callback` helper defined by the class swallows
every exception its callable raises, but `_feeder` does not route the
user callback through it — it calls `self.on_tick` directly, so an
exception raised inside the callback propagates out of the dispatch
path; containment of that exception is left to the enclosing websocket
library. -/
theorem callback_exception_propagates (f : Ticker → Except PyErr Unit)
    (e : PyErr) (hf : ∀ t, f t = .error e) :
    (∀ cb t, Subscription_callback cb t = .ok ()) ∧
    feeder (cbState f) tradeFrame = (.error e, ["AAPL"]) := by
  have hfe : f = fun _ => .error e := funext hf
  subst hfe
  refine ⟨?_, rfl⟩
  intro cb t
  cases cb with
  | none => rfl
  | some c => cases hc : c.call t <;> simp [Subscription_callback, hc]

/-- C2 witness. -/
theorem callback_exception_propagates_witness :
    (∀ cb t, Subscription_callback cb t = .ok ()) ∧
    feeder (cbState (fun _ => .error (.userError "bad"))) tradeFrame
      = (.error (.userError "bad"), ["AAPL"]) :=
  callback_exception_propagates (fun _ => .error (.userError "bad"))
    (.userError "bad") (fun _ => rfl)

/-- C5 counterexample: decoding the example record succeeds, but the
decoded event has no field named `timestamp` — `_cols` renames `t` to
`datetime`, not to `timestamp`. -/
theorem toDict_no_timestamp_field :
    toDict tradeRec = .ok decodedTradeInfo ∧
    pyLookup decodedTradeInfo "timestamp" = none := by
  exact ⟨rfl, rfl⟩

/-- C5 (amended): decoding the example frame yields exactly one trade
event, with fields renamed `s→symbol`, `p→price`, `v→volume` and
`t→datetime` (not `t→timestamp`): symbol `AAPL`, price `150.2`, volume
`10`, and `datetime` holding the calendar decomposition of the absolute
instant 2021-01-01T00:00:00Z (epoch milliseconds divided by 1000 and
converted by `datetime.fromtimestamp`). -/
theorem decode_example_frame :
    pyLookup tradeFrameKvs "data" = some (.arr [.obj tradeRec]) ∧
    toDict tradeRec = .ok decodedTradeInfo ∧
    pyLookup decodedTradeInfo "symbol" = some (.json (.str "AAPL")) ∧
    pyLookup decodedTradeInfo "price" = some (.json (.num (150.2 : ℚ))) ∧
    pyLookup decodedTradeInfo "volume" = some (.json (.num 10)) ∧
    pyLookup decodedTradeInfo "datetime"
      = some (.dt ⟨2021, 1, 1, 0, 0, 0, 0⟩) ∧
    fromtimestampUTC ((1609459200000 : ℚ) / 1000)
      = .ok ⟨2021, 1, 1, 0, 0, 0, 0⟩ := by
  refine ⟨rfl, rfl, rfl, rfl, rfl, rfl, ?_⟩
  rw [← mkRat_div_thousand]
  rfl

/-- C6 counterexample: a decoded trade for the untracked symbol `TSLA`
is not silently dropped — `self.tickers[_symbol]` raises `KeyError`,
which propagates out of `_feeder`. -/
theorem feeder_untracked_symbol_raises :
    feeder tradeState (mkTradeFrame "TSLA")
      = (.error (.keyError "TSLA"), []) := rfl

/-- C6 (amended): for every symbol outside the tracked set, a decoded
trade event for it makes `_feeder` raise `KeyError` on the ticker
lookup: no `Ticker` is created or mutated and no callback is invoked,
but the event is rejected with a propagating error rather than being
dropped silently. -/
theorem feeder_untracked_symbol_keyerror (sym : String)
    (hA : sym ≠ "AAPL") (hM : sym ≠ "MSFT") :
    feeder tradeState (mkTradeFrame sym)
      = (.error (.keyError sym), []) := by
  have hA' : ("AAPL" == sym) = false := beq_eq_false_iff_ne.mpr (Ne.symm hA)
  have hM' : ("MSFT" == sym) = false := beq_eq_false_iff_ne.mpr (Ne.symm hM)
  have hts : tradeState =
      { tickers := [("AAPL", Ticker.init "AAPL" 1000),
                    ("MSFT", Ticker.init "MSFT" 1000)],
        max_history := 1000, timeout := 5, on_tick := none } := rfl
  rw [hts]
  have hft : convTVal (.num 0) = .ok (.dt ⟨1970, 1, 1, 0, 0, 0, 0⟩) := rfl
  simp [feeder, feedList, feedOne, toDict, toDictGo, pyPop, pyLookup, pyDictSet,
    pyGetE, tickersGet, mkTradeFrame, cols, hft, List.find?, List.eraseP,
    hA', hM']

/-- C6 witness. -/
theorem feeder_untracked_symbol_keyerror_witness :
    feeder tradeState (mkTradeFrame "GOOG")
      = (.error (.keyError "GOOG"), []) :=
  feeder_untracked_symbol_keyerror "GOOG" (by decide) (by decide)

/-- The length of the last-`n` suffix. -/
theorem tailN_length (n : Nat) (l : List α) :
    (tailN n l).length = min l.length n := by
  simp [tailN]
  omega

/-- Taking the last `n` of a trimmed prefix extended by `b` is taking
the last `n` of the untrimmed list extended by `b`. -/
theorem tailN_tailN_append (n : Nat) (a b : List α) :
    tailN n (tailN n a ++ b) = tailN n (a ++ b) := by
  unfold tailN
  have h1 : a.drop (a.length - n) ++ b = (a ++ b).drop (a.length - n) :=
    (List.drop_append_of_le_length (Nat.sub_le _ _)).symm
  rw [h1, List.drop_drop]
  congr 1
  simp only [List.length_drop, List.length_append]
  omega

/-- Folding trades through the history step from a trimmed accumulator
yields the last `H` of all rows, in order. -/
theorem foldl_tickStep_pos (H : Int) (hH : 0 < H) (rows : List DFRow) :
    ∀ acc : List DFRow, acc.length ≤ H.toNat →
      List.foldl (tickStep H) acc rows = tailN H.toNat (acc ++ rows) := by
  induction rows with
  | nil =>
    intro acc hacc
    simp [tailN, Nat.sub_eq_zero_of_le hacc]
  | cons r rs ih =>
    intro acc hacc
    have hstep : tickStep H acc r = tailN H.toNat (acc ++ [r]) := by
      simp [tickStep, hH, historyAppendTail, tailDF, tailN, Int.le_of_lt hH]
    rw [List.foldl_cons, hstep, ih (tailN H.toNat (acc ++ [r]))
      (by rw [tailN_length]; omega)]
    rw [tailN_tailN_append]
    congr 1
    simp

/-- C4: over any sequence of trades applied to one symbol's history with
`max_history = H` (the per-trade update performed by `_feeder`,
real_time.py:144-146): when `H > 0` the final history is exactly the
most recent `H` rows in arrival order (oldest evicted first) and has
length `min N H`; when `H = 0` the history stays empty no matter how
many trades arrive. -/
theorem history_ring_buffer (H : Int) (rows : List DFRow) :
    (0 < H → List.foldl (tickStep H) [] rows = tailN H.toNat rows ∧
      (List.foldl (tickStep H) [] rows).length = min rows.length H.toNat) ∧
    (H = 0 → List.foldl (tickStep H) [] rows = []) := by
  constructor
  · intro hH
    have h := foldl_tickStep_pos H hH rows [] (by simp)
    simp only [List.nil_append] at h
    exact ⟨h, by rw [h, tailN_length]⟩
  · intro h0
    subst h0
    have hz : ∀ (l : List DFRow) (acc : List DFRow),
        List.foldl (tickStep 0) acc l = acc := by
      intro l
      induction l with
      | nil => intro acc; rfl
      | cons r rs ih => intro acc; rw [List.foldl_cons]; simp [tickStep, ih]
    exact hz rows []

/-- C4 witness. -/
theorem history_ring_buffer_witness :
    List.foldl (tickStep 3) [] sampleRows = tailN 3 sampleRows ∧
    (List.foldl (tickStep 3) [] sampleRows).length = min sampleRows.length 3 ∧
    List.foldl (tickStep 0) [] sampleRows = [] :=
  ⟨((history_ring_buffer 3 sampleRows).1 (by decide)).1,
   ((history_ring_buffer 3 sampleRows).1 (by decide)).2,
   (history_ring_buffer 0 sampleRows).2 rfl⟩

theorem pyLookup_append_none {α : Type} {a : List (String × α)}
    (b : List (String × α)) (k : String) (h : pyLookup a k = none) :
    pyLookup (a ++ b) k = pyLookup b k := by
  unfold pyLookup at *
  rw [List.find?_append]
  cases hf : a.find? (fun p => p.1 == k) with
  | none => simp
  | some v => rw [hf] at h; simp at h

/-- Folding `self.tickers[_symbol] = Ticker(...)` over a duplicate-free
symbol list builds exactly the association list of the symbols in
order. -/
theorem foldl_pyDictSet_build (f : String → Ticker) :
    ∀ (l : List String) (acc : List (String × Ticker)), l.Nodup →
      (∀ s ∈ l, pyLookup acc s = none) →
      l.foldl (fun m s => pyDictSet m s (f s)) acc
        = acc ++ l.map (fun s => (s, f s)) := by
  intro l
  induction l with
  | nil => intro acc _ _; simp
  | cons s rest ih =>
    intro acc hnd hnone
    have hs : pyLookup acc s = none := hnone s (by simp)
    have hfind : acc.find? (fun p => p.1 == s) = none := by
      unfold pyLookup at hs
      cases hf : acc.find? (fun p => p.1 == s) with
      | none => rfl
      | some v => rw [hf] at hs; simp at hs
    have hset : pyDictSet acc s (f s) = acc ++ [(s, f s)] := by
      unfold pyDictSet
      rw [hfind]
      simp
    rw [List.foldl_cons, hset, ih (acc ++ [(s, f s)]) (List.Nodup.of_cons hnd) ?h2]
    · simp
    · intro s' hs'
      have h1 : pyLookup acc s' = none := hnone s' (List.mem_cons_of_mem _ hs')
      have h2 : s' ≠ s := by
        rintro rfl
        exact (List.nodup_cons.mp hnd).1 hs'
      rw [pyLookup_append_none _ _ h1]
      simp [pyLookup, List.find?, beq_eq_false_iff_ne.mpr (Ne.symm h2)]

/-- C7: `connect` builds `self.tickers` with exactly one `Ticker` per
symbol (in list order, each keyed by its symbol) strictly before the
transport is started — in the action trace every `createTicker` precedes
`startTransport`, which precedes all readiness polling; hence every
tracked symbol has exactly one `Ticker` from the moment the transport
can reach the open state. -/
theorem connect_builds_tickers_before_transport (st : SubState)
    (syms : List String) (cbarg : Option PyCallable) (H : Int) (T : Nat)
    (conn : Nat → Bool) (hnd : syms.Nodup) :
    (connect st syms cbarg H T conn).1.tickers
      = syms.map (fun s => (s, Ticker.init s H)) ∧
    (∀ s ∈ syms, List.count s
      ((connect st syms cbarg H T conn).1.tickers.map Prod.fst) = 1) ∧
    ∃ k, (connect st syms cbarg H T conn).2.1
      = syms.map ConnAction.createTicker
        ++ ConnAction.startTransport :: List.replicate k ConnAction.sleepPoll := by
  have hb : (connect st syms cbarg H T conn).1.tickers
      = syms.foldl (fun m s => pyDictSet m s (Ticker.init s H)) [] := rfl
  have hbuild := foldl_pyDictSet_build (fun s => Ticker.init s H) syms [] hnd
    (fun s _ => rfl)
  refine ⟨?_, ?_, ⟨(pollLoop conn 0 T).1, rfl⟩⟩
  · rw [hb, hbuild]
    simp
  · intro s hs
    rw [hb, hbuild]
    simp only [List.nil_append, List.map_map]
    have hid : (Prod.fst ∘ fun s => (s, Ticker.init s H)) = id := rfl
    rw [hid, List.map_id]
    exact List.count_eq_one_of_mem hnd hs

/-- C7 witness. -/
theorem connect_builds_tickers_before_transport_witness :
    (connect initState ["A", "B"] none 7 2 (fun _ => true)).1.tickers
      = [("A", Ticker.init "A" 7), ("B", Ticker.init "B" 7)] ∧
    List.count "A"
      ((connect initState ["A", "B"] none 7 2 (fun _ => true)).1.tickers.map
        Prod.fst) = 1 ∧
    ∃ k, (connect initState ["A", "B"] none 7 2 (fun _ => true)).2.1
      = [ConnAction.createTicker "A", ConnAction.createTicker "B"]
        ++ ConnAction.startTransport :: List.replicate k ConnAction.sleepPoll := by
  have h := connect_builds_tickers_before_transport initState ["A", "B"] none 7 2
    (fun _ => true) (by decide)
  exact ⟨h.1, h.2.1 "A" (by simp), h.2.2⟩

/-- With no registered callback, one record's dispatch invokes nothing
and leaves `on_tick` unset. -/
theorem feedOne_no_cb (st : SubState) (r : Json) (h : st.on_tick = none) :
    (feedOne st r).2 = [] ∧
    ∀ st', (feedOne st r).1 = .ok st' → st'.on_tick = none := by
  cases r with
  | obj kvs =>
    unfold feedOne
    repeat' split
    all_goals simp_all
  | _ => exact ⟨rfl, fun st' h' => by cases h'⟩

/-- With no registered callback, the record loop invokes nothing. -/
theorem feedList_no_cb (ds : List Json) :
    ∀ st : SubState, st.on_tick = none →
      (feedList st ds).2 = [] ∧
      ∀ st', (feedList st ds).1 = .ok st' → st'.on_tick = none := by
  induction ds with
  | nil =>
    intro st h
    exact ⟨rfl, fun st' h' => by cases h'; exact h⟩
  | cons r rs ih =>
    intro st h
    have hone := feedOne_no_cb st r h
    unfold feedList
    cases hfo : feedOne st r with
    | mk res tr =>
      cases res with
      | error e =>
        exact ⟨by rw [hfo] at hone; exact hone.1, fun st' h' => by cases h'⟩
      | ok st1 =>
        have h1 : st1.on_tick = none := hone.2 st1 (by rw [hfo])
        have hrec := ih st1 h1
        constructor
        · have htr : tr = [] := by rw [hfo] at hone; exact hone.1
          simp [htr, hrec.1]
        · intro st' h'
          exact hrec.2 st' h'

/-- With no registered callback, `_feeder` never invokes a callback on
any frame. -/
theorem feeder_no_cb (st : SubState) (j : Json) (h : st.on_tick = none) :
    (feeder st j).2 = [] := by
  cases j with
  | obj kvs =>
    unfold feeder
    repeat' split
    all_goals simp_all [feedList_no_cb _ st h]
  | _ => rfl

/-- C9: a callback argument that is not a plain function object (fails
`isinstance(on_tick, types.FunctionType)` — e.g. a bound method or other
callable object) is silently not registered by `connect` on a fresh
subscription: `connect` completes with `on_tick` still `None`, and no
callback is ever invoked on any subsequent frame. -/
theorem nonfunction_callback_not_registered (syms : List String) (H : Int)
    (T : Nat) (conn : Nat → Bool) (c : PyCallable)
    (hc : c.isFunctionType = false) :
    (connect initState syms (some c) H T conn).1.on_tick = none ∧
    ∀ j, (feeder (connect initState syms (some c) H T conn).1 j).2 = [] := by
  have h1 : (connect initState syms (some c) H T conn).1.on_tick = none := by
    simp [connect, hc, initState]
  exact ⟨h1, fun j => feeder_no_cb _ j h1⟩

/-- C9 witness. -/
theorem nonfunction_callback_not_registered_witness :
    (connect initState ["AAPL"] (some (.boundMethod (fun _ => .ok ()))) 1000 5
      (fun _ => true)).1.on_tick = none ∧
    (feeder (connect initState ["AAPL"]
      (some (.boundMethod (fun _ => .ok ()))) 1000 5 (fun _ => true)).1
      (mkTradeFrame "AAPL")).2 = [] := by
  have h := nonfunction_callback_not_registered ["AAPL"] 1000 5 (fun _ => true)
    (.boundMethod (fun _ => .ok ())) rfl
  exact ⟨h.1, h.2 (mkTradeFrame "AAPL")⟩

/-- A record containing a key outside `_cols` never decodes: the
comprehension raises before completing. -/
theorem toDictGo_unknown_key_err :
    ∀ (rec : List (String × Json)) (acc : List (String × PyVal)) (k : String)
      (v : Json), (k, v) ∈ rec → pyLookup cols k = none →
      ∃ e, toDictGo rec acc = .error e := by
  intro rec
  induction rec with
  | nil => intro acc k v hmem _; cases hmem
  | cons p rest ih =>
    intro acc k v hmem hk
    obtain ⟨k0, v0⟩ := p
    unfold toDictGo
    cases hc : pyLookup cols k0 with
    | none => exact ⟨.keyError k0, rfl⟩
    | some k0' =>
      dsimp only
      have hne : k ≠ k0 := by
        rintro rfl
        rw [hk] at hc
        cases hc
      have hmem' : (k, v) ∈ rest := by
        rcases List.mem_cons.mp hmem with heq | hm
        · cases heq; exact absurd rfl hne
        · exact hm
      by_cases hkt : k0 = "t"
      · rw [if_pos hkt]
        cases hf : convTVal v0 with
        | error e => exact ⟨e, rfl⟩
        | ok pv => exact ih _ k v hmem' hk
      · rw [if_neg hkt]
        exact ih _ k v hmem' hk

/-- When every `t` value of the record converts (numeric and within
`datetime`'s supported range), the failure on a record with an
out-of-`_cols` key is precisely a `KeyError` on such a key. -/
theorem toDictGo_unknown_key_keyerr :
    ∀ (rec : List (String × Json)) (acc : List (String × PyVal)) (k : String)
      (v : Json), (k, v) ∈ rec → pyLookup cols k = none →
      (∀ p ∈ rec, p.1 = "t" → tConvertible p.2 = true) →
      ∃ k', pyLookup cols k' = none ∧ toDictGo rec acc = .error (.keyError k') := by
  intro rec
  induction rec with
  | nil => intro acc k v hmem _ _; cases hmem
  | cons p rest ih =>
    intro acc k v hmem hk ht
    obtain ⟨k0, v0⟩ := p
    unfold toDictGo
    cases hc : pyLookup cols k0 with
    | none => exact ⟨k0, hc, rfl⟩
    | some k0' =>
      dsimp only
      have hne : k ≠ k0 := by
        rintro rfl
        rw [hk] at hc
        cases hc
      have hmem' : (k, v) ∈ rest := by
        rcases List.mem_cons.mp hmem with heq | hm
        · cases heq; exact absurd rfl hne
        · exact hm
      have ht' : ∀ p ∈ rest, p.1 = "t" → tConvertible p.2 = true :=
        fun p hp => ht p (List.mem_cons_of_mem _ hp)
      by_cases hkt : k0 = "t"
      · rw [if_pos hkt]
        have hs : tConvertible v0 = true :=
          ht (k0, v0) (List.mem_cons_self _ _) hkt
        cases hf : convTVal v0 with
        | error e => simp [tConvertible, hf] at hs
        | ok pv => exact ih _ k v hmem' hk ht'
      · rw [if_neg hkt]
        exact ih _ k v hmem' hk ht'

/-- C10 counterexample: a record with the out-of-`_cols` key `z` whose
`t` entry, processed first, has a non-numeric value fails with
`TypeError` (at the `v / 1000` conversion) rather than with a key-lookup
error. -/
theorem toDict_bad_t_typeerror :
    toDict badKeyRec = .error (.typeError "unsupported operand type for /") := rfl

/-- Demonstration of the out-of-range `t` branch: with
`t = 10^15` epoch milliseconds (year ≈ 33658), `_to_dict` raises out of
`datetime.fromtimestamp` before the unknown key `z` is ever looked
up. -/
theorem toDict_out_of_range_t_valueerror :
    toDict [("t", .num 1000000000000000), ("z", .num 1)]
      = .error (.valueError "year is out of range") := rfl

/-- C10 (amended): a trade record containing any key outside
`{s, p, t, v}` never decodes — `_to_dict` raises before completing, so
the record is never applied to a `Ticker`. When every `t` entry of the
record converts (its value is numeric and denotes an instant inside
`datetime`'s supported range), the failure is a `KeyError` on an
out-of-`_cols` key (the renaming map is total only on `{s, p, t, v}`);
otherwise an earlier `t` entry raises first — `TypeError` for a
non-numeric value, or `datetime.fromtimestamp`'s range error for an
out-of-range instant. -/
theorem unknown_key_decode_fails (rec : List (String × Json)) (k : String)
    (v : Json) (hmem : (k, v) ∈ rec) (hk : pyLookup cols k = none) :
    (∃ e, toDict rec = .error e) ∧
    ((∀ p ∈ rec, p.1 = "t" → tConvertible p.2 = true) →
      ∃ k', pyLookup cols k' = none ∧ toDict rec = .error (.keyError k')) ∧
    (∀ k2 : String, (pyLookup cols k2).isSome ↔
      k2 = "s" ∨ k2 = "p" ∨ k2 = "t" ∨ k2 = "v") := by
  refine ⟨toDictGo_unknown_key_err rec [] k v hmem hk,
    fun ht => toDictGo_unknown_key_keyerr rec [] k v hmem hk ht, ?_⟩
  intro k2
  by_cases h1 : k2 = "s"
  · subst h1; simp [pyLookup, cols]
  by_cases h2 : k2 = "p"
  · subst h2; simp [pyLookup, cols]
  by_cases h3 : k2 = "t"
  · subst h3; simp [pyLookup, cols]
  by_cases h4 : k2 = "v"
  · subst h4; simp [pyLookup, cols]
  simp [pyLookup, cols, List.find?, h1, h2, h3, h4,
    beq_eq_false_iff_ne.mpr (Ne.symm h1), beq_eq_false_iff_ne.mpr (Ne.symm h2),
    beq_eq_false_iff_ne.mpr (Ne.symm h3), beq_eq_false_iff_ne.mpr (Ne.symm h4)]

/-- C10 witness. -/
theorem unknown_key_decode_fails_witness :
    (∃ e, toDict [("s", .str "A"), ("x", .num 1)] = .error e) ∧
    (∃ k', pyLookup cols k' = none ∧
      toDict [("s", .str "A"), ("x", .num 1)] = .error (.keyError k')) ∧
    ((pyLookup cols "x").isSome ↔
      "x" = "s" ∨ "x" = "p" ∨ "x" = "t" ∨ "x" = "v") := by
  have h := unknown_key_decode_fails [("s", .str "A"), ("x", .num 1)] "x"
    (.num 1) (List.mem_cons_of_mem _ (List.mem_cons_self _ _)) rfl
  exact ⟨h.1, h.2.1 (by decide), h.2.2 "x"⟩

theorem takeWhile_append_all (p : Char → Bool) (l r : List Char)
    (h : ∀ c ∈ l, p c = true) : (l ++ r).takeWhile p = l ++ r.takeWhile p := by
  induction l with
  | nil => simp
  | cons c cs ih =>
    simp only [List.cons_append, List.takeWhile_cons_of_pos (h c (by simp))]
    rw [ih (fun c hc => h c (by simp [hc]))]

theorem dropWhile_append_all (p : Char → Bool) (l r : List Char)
    (h : ∀ c ∈ l, p c = true) : (l ++ r).dropWhile p = r.dropWhile p := by
  induction l with
  | nil => simp
  | cons c cs ih =>
    simp only [List.cons_append, List.dropWhile_cons_of_pos (h c (by simp))]
    exact ih (fun c hc => h c (by simp [hc]))

/-- Reading a string literal whose body has no quote and no backslash
returns exactly the body. -/
theorem parseJStr_good (l r : List Char) (h : ∀ c ∈ l, c ≠ '"' ∧ c ≠ '\\') :
    parseJStr ('"' :: (l ++ '"' :: r)) = some (String.mk l, r) := by
  have hq : ∀ c ∈ l, (fun c => c != '"') c = true := by
    intro c hc
    simp [(h c hc).1]
  simp only [parseJStr]
  rw [takeWhile_append_all _ _ _ hq, dropWhile_append_all _ _ _ hq]
  rw [List.takeWhile_cons_of_neg (by decide), List.dropWhile_cons_of_neg (by decide)]
  simp
  exact fun hc => (h '\\' hc).2 rfl

/-- The subscribe message the code concatenates for a symbol without
quote or backslash characters denotes exactly the two-member JSON
object `\x7b"type": "subscribe", "symbol": "<symbol>"\x7d`. -/
theorem parse_subscribeMsg (s : String)
    (h : ∀ c ∈ s.data, c ≠ '"' ∧ c ≠ '\\') :
    parseFlatObj (subscribeMsg s)
      = some [("type", "subscribe"), ("symbol", s)] := by
  have h1 : parseFlatObj (subscribeMsg s)
      = (match parsePairsGo ((subscribeMsg s).length)
          ('"' :: 's' :: 'y' :: 'm' :: 'b' :: 'o' :: 'l' :: '"' :: ':' ::
            ' ' :: '"' :: (s.data ++ '"' :: '\x7d' :: [])) with
         | some ps => some (("type", "subscribe") :: ps)
         | none => none) := rfl
  have h2 : parsePairsGo ((subscribeMsg s).length)
      ('"' :: 's' :: 'y' :: 'm' :: 'b' :: 'o' :: 'l' :: '"' :: ':' ::
        ' ' :: '"' :: (s.data ++ '"' :: '\x7d' :: []))
      = (match parseJStr ('"' :: (s.data ++ '"' :: '\x7d' :: [])) with
         | none => none
         | some (v, cs3) =>
           match skipWs cs3 with
           | ',' :: cs4 =>
             match parsePairsGo ((subscribeMsg s).length - 1) cs4 with
             | some ps => some (("symbol", v) :: ps)
             | none => none
           | '\x7d' :: cs5 =>
             if (skipWs cs5).isEmpty then some [("symbol", v)] else none
           | _ => none) := rfl
  rw [h1, h2, parseJStr_good s.data ['\x7d'] h]
  rfl

/-- C8: the transport-open hook sends exactly one subscribe message per
tracked symbol — one `ws.send` per key of `self.tickers`, in dict
order, with no acknowledgment awaited — and, for every symbol whose
text contains no quote or backslash character, the sent string denotes
exactly the JSON object
`\x7b"type": "subscribe", "symbol": "<symbol>"\x7d`. -/
theorem onOpen_sends_subscribe_per_symbol (st : SubState)
    (h : ∀ p ∈ st.tickers, ∀ c ∈ (p.1 : String).data, c ≠ '"' ∧ c ≠ '\\') :
    onOpen st = (st.tickers.map Prod.fst).map subscribeMsg ∧
    (onOpen st).length = st.tickers.length ∧
    ∀ p ∈ st.tickers, parseFlatObj (subscribeMsg p.1)
      = some [("type", "subscribe"), ("symbol", p.1)] := by
  refine ⟨by simp [onOpen], by simp [onOpen], ?_⟩
  intro p hp
  exact parse_subscribeMsg p.1 (h p hp)

/-- C8 witness. -/
theorem onOpen_sends_subscribe_per_symbol_witness :
    onOpen tradeState = ["AAPL", "MSFT"].map subscribeMsg ∧
    (onOpen tradeState).length = tradeState.tickers.length ∧
    parseFlatObj (subscribeMsg "AAPL")
      = some [("type", "subscribe"), ("symbol", "AAPL")] := by
  have hh := onOpen_sends_subscribe_per_symbol tradeState (by decide)
  have hm : ("AAPL", Ticker.init "AAPL" 1000) ∈ tradeState.tickers := by
    have he : tradeState.tickers
        = [("AAPL", Ticker.init "AAPL" 1000),
           ("MSFT", Ticker.init "MSFT" 1000)] := rfl
    rw [he]
    exact List.mem_cons_self _ _
  exact ⟨hh.1, hh.2.1, hh.2.2 ("AAPL", Ticker.init "AAPL" 1000) hm⟩

end Fhub
